import Mathlib

/-!
Verification of the goblina video-generation core (`src/server.js`).

The definitions below are a shallow embedding of the size negotiator,
job submitter, status poller, generate handler and remix handler of the
server.  JavaScript numbers are modelled as exact rationals (every
comparison made by the embedded code is between values produced by the
same syntactic expressions, so the orderings that the theorems rely on
are insensitive to the float/rational distinction), strings as `String`,
and the request/response side effects as explicit oracles and records.
-/

namespace Goblina

/-! ### Valid size catalog (`server.js` lines 858-863) -/

structure SoraSize where
  width : Nat
  height : Nat
  ratio : Rat
  name : String
deriving DecidableEq

/-- The `VALID_SORA_SIZES` constant, field for field.  Note that the
`ratio` fields of the last two entries are written `9/16` and `16/9`
in the source, not `1024/1792` and `1792/1024`. -/
def VALID_SORA_SIZES : List SoraSize :=
  [ ⟨720, 1280, 9/16, "720x1280"⟩,
    ⟨1280, 720, 16/9, "1280x720"⟩,
    ⟨1024, 1792, 9/16, "1024x1792"⟩,
    ⟨1792, 1024, 16/9, "1792x1024"⟩ ]

/-! ### JavaScript number / string helpers

`jsNumber` models `Number(s)` on the strings this code actually meets:
the empty string (0), and optionally signed decimal numerals.  Exotic
inputs (hex, exponents, `Infinity`) are mapped to `none`, the model of
`NaN`; every theorem quantifying over all strings only relies on the
result being *some* rational or `none`, so this restriction is
harmless. -/

def digitVal (c : Char) : Option Nat :=
  if c = '0' then some 0 else if c = '1' then some 1 else if c = '2' then some 2
  else if c = '3' then some 3 else if c = '4' then some 4 else if c = '5' then some 5
  else if c = '6' then some 6 else if c = '7' then some 7 else if c = '8' then some 8
  else if c = '9' then some 9 else none

def parseDigits (cs : List Char) : Option Nat :=
  cs.foldl
    (fun acc c =>
      match acc, digitVal c with
      | some a, some d => some (a * 10 + d)
      | _, _ => none)
    (some 0)

/-- Split a character list at every occurrence of `sep` (the semantics of
JS `String.prototype.split` with a one-character separator). -/
def splitOnChar (sep : Char) : List Char → List (List Char)
  | [] => [[]]
  | c :: rest =>
    if c = sep then [] :: splitOnChar sep rest
    else
      match splitOnChar sep rest with
      | h :: t => (c :: h) :: t
      | [] => [[c]]

def isJsSpace (c : Char) : Bool :=
  c = ' ' || c = '\t' || c = '\n' || c = '\r'

/-- Leading/trailing whitespace removal performed by `Number(...)`. -/
def jsTrim (cs : List Char) : List Char :=
  ((cs.dropWhile isJsSpace).reverse.dropWhile isJsSpace).reverse

def jsNumberChars (cs : List Char) : Option Rat :=
  let t := jsTrim cs
  if t.isEmpty then some 0
  else
    let signBody : Rat × List Char :=
      match t with
      | c :: rest =>
        if c = '-' then (-1, rest)
        else if c = '+' then (1, rest)
        else (1, t)
      | [] => (1, [])
    match splitOnChar '.' signBody.2 with
    | [ip] =>
      if ip.isEmpty then none
      else (parseDigits ip).map (fun n => signBody.1 * n)
    | [ip, fp] =>
      if ip.isEmpty && fp.isEmpty then none
      else
        match parseDigits ip, parseDigits fp with
        | some i, some f =>
          some (signBody.1 * ((i : Rat) + (f : Rat) / (10 : Rat) ^ fp.length))
        | _, _ => none
    | _ => none

def jsNumber (s : String) : Option Rat :=
  jsNumberChars s.data

/-- `requestedSize.split('x').map(Number)` destructured into its first two
entries; a missing entry (JS `undefined`) is merged with `NaN` into
`none`, which is exactly how the following truthiness test treats it. -/
def jsSplitNumbers (s : String) : Option Rat × Option Rat :=
  let parts := (splitOnChar 'x' s.data).map jsNumberChars
  ((parts.get? 0).getD none, (parts.get? 1).getD none)

/-! ### Size negotiator (`mapToValidSoraSize`, `server.js` lines 866-895) -/

/-- The `for (const validSize of VALID_SORA_SIZES)` loop: `best`/`sd` are
the `bestMatch`/`smallestDiff` accumulators, candidates of the other
orientation are skipped, and a candidate replaces the best only on a
strictly smaller ratio difference. -/
def scanSizes (r : Rat) (isP : Bool) : List SoraSize → SoraSize → Rat → SoraSize
  | [], best, _ => best
  | v :: rest, best, sd =>
    if decide (v.height > v.width) ≠ isP then scanSizes r isP rest best sd
    else if |r - v.ratio| < sd then scanSizes r isP rest v |r - v.ratio|
    else scanSizes r isP rest best sd

/-- Body of `mapToValidSoraSize` after the falsiness check: ratio and
orientation of the request, loop seeded with `VALID_SORA_SIZES[0]`. -/
def mapCore (width height : Rat) : String :=
  let requestedRatio := width / height
  let isPortrait : Bool := decide (height > width)
  let b0 := VALID_SORA_SIZES.head (by decide)
  (scanSizes requestedRatio isPortrait VALID_SORA_SIZES b0
    |requestedRatio - b0.ratio|).name

/-- `mapToValidSoraSize(requestedSize)`: parse `"WxH"`, default to
`'720x1280'` when either component is falsy (`NaN`, `0`, `undefined`),
otherwise run the catalog scan. -/
def mapToValidSoraSize (requestedSize : String) : String :=
  match jsSplitNumbers requestedSize with
  | (some width, some height) =>
    if width = 0 ∨ height = 0 then "720x1280"
    else mapCore width height
  | (_, _) => "720x1280"

/-! ### Temporary files (`uploads/` directory)

Every transient file the generate handler touches lives in the single
`uploads` directory.  Multer names the original upload; the two files the
handler itself writes carry the distinguishing prefixes `fetched_` and
`resized_` together with a `Date.now()` token, which the constructors
record. -/

inductive TempPath where
  | upload (name : String)
  | fetched (t : Nat) (ext : String)
  | resized (t : Nat) (base : String)
deriving DecidableEq

/-- `path.basename` of a temp path, as used to build a `resized_` name. -/
def baseNameOf : TempPath → String
  | .upload n => n
  | .fetched t ext => "fetched_" ++ toString t ++ "." ++ ext
  | .resized t b => "resized_" ++ toString t ++ "_" ++ b

/-! ### Job submitter (`callOpenAIVideoCreate`, `server.js` lines 898-932) -/

/-- JS `a || d` on an optional string: `undefined` and the empty string are
falsy and select the default. -/
def jsOrStr (o : Option String) (d : String) : String :=
  match o with
  | none => d
  | some s => if s = "" then d else s

/-- JS `a || d` on an optional number with a nonzero default. -/
def jsOrNat (o : Option Nat) (d : Nat) : Nat :=
  match o with
  | none => d
  | some n => if n = 0 then d else n

structure CreateArgs where
  prompt : Option String
  model : Option String
  seconds : Option Nat
  size : Option String
  imagePath : Option TempPath
  imageMime : Option String
  imageOriginalName : Option String
deriving DecidableEq

/-- The multipart form assembled by `callOpenAIVideoCreate`, as the ordered
list of appended `(field, value)` pairs: optional `prompt` (skipped when
falsy), `model` defaulted to `'sora-2'`, optional `seconds`, the negotiated
`size` (the requested size defaulted to `'720x1280'` and passed through
`mapToValidSoraSize`), and the optional `input_reference` file part, whose
recorded value is the declared filename (`imageOriginalName ||
path.basename(imagePath)`). -/
def buildCreateForm (a : CreateArgs) : List (String × String) :=
  (match a.prompt with
   | some p => if p = "" then [] else [("prompt", p)]
   | none => [])
  ++ [("model", jsOrStr a.model "sora-2")]
  ++ (match a.seconds with
      | some n => if n = 0 then [] else [("seconds", toString n)]
      | none => [])
  ++ [("size", mapToValidSoraSize (jsOrStr a.size "720x1280"))]
  ++ (match a.imagePath with
      | some p => [("input_reference", jsOrStr a.imageOriginalName (baseNameOf p))]
      | none => [])

/-! ### Status poller (`GET /api/status/:id`, `server.js` lines 1013-1081)

One remote attempt is a `FetchOutcome`: a successful response whose body
parses (or fails to parse), a non-ok HTTP response whose error text parses
(or fails to parse) as JSON, or a rejected fetch carrying an error code.
The retry loop is `pollAux`, structurally recursive on the number of
attempts remaining after the current one (`maxRetries - attempt`); it
records each backoff sleep in milliseconds.  Both exhaustion returns in the
source carry `retryable: true`, and the post-loop fallback is unreachable
because every iteration of the final attempt returns. -/

inductive FetchOutcome where
  | ok (parseOk : Bool) (body : String)
  | httpError (status : Nat) (parseOk : Bool) (text : String)
  | netError (code : String)

/-- `response.status === 500 || response.status === 502 || response.status === 503`. -/
def transientStatus (s : Nat) : Bool :=
  s == 500 || s == 502 || s == 503

/-- `err.code === 'ECONNRESET' || err.code === 'ETIMEDOUT'`. -/
def retryCode (c : String) : Bool :=
  c == "ECONNRESET" || c == "ETIMEDOUT"

inductive PollResp where
  | success (body : String)
  | failure (retryable : Bool)
deriving DecidableEq

structure PollResult where
  attempts : Nat
  sleeps : List Nat
  resp : PollResp
deriving DecidableEq

def pollAux (remote : Nat → FetchOutcome) : Nat → Nat → List Nat → PollResult
  | a, 0, sleeps =>
    -- final attempt: every failure path reaches the `attempt === maxRetries`
    -- return, which reports `retryable: true`
    match remote a with
    | .ok true body => ⟨a, sleeps, .success body⟩
    | _ => ⟨a, sleeps, .failure true⟩
  | a, rem + 1, sleeps =>
    match remote a with
    | .ok true body => ⟨a, sleeps, .success body⟩
    | .ok false _ => pollAux remote (a + 1) rem sleeps
    | .httpError s pOk _ =>
      if pOk then
        if transientStatus s then pollAux remote (a + 1) rem (sleeps ++ [1000 * a])
        else pollAux remote (a + 1) rem sleeps
      else pollAux remote (a + 1) rem sleeps
    | .netError c =>
      if retryCode c then pollAux remote (a + 1) rem (sleeps ++ [1000 * a])
      else pollAux remote (a + 1) rem sleeps

/-- The whole retry loop: `maxRetries = 3`, so the first attempt has two
attempts remaining after it. -/
def poll (remote : Nat → FetchOutcome) : PollResult :=
  pollAux remote 1 2 []

/-! ### Generate handler (`POST /api/generate`)

Model of the handler in `src/unnamed/part_000` lines 1766-1879 (the
`server.js` lines 935-1010 version is the same handler without the
image-URL branch).  The request carries the multer-saved upload (written
before the handler body runs), and the `World` oracles fix the outcome of
every side effect: the image-URL fetch, the `fs.writeFileSync` of the
fetched copy, `sharp().metadata()`, `sharp().resize().toFile()`, the
submission call, and the two `Date.now()` readings.  The result records
the response status, every temp file created during the call, every
`fs.unlink` issued (each unlink passes an empty callback, so deleting a
missing file is a no-op), every resize request, the submitted arguments
and the effective image path handed to the submitter. -/

structure UploadedFile where
  path : String
  mimetype : String
  originalname : String
deriving DecidableEq

structure GenRequest where
  hasOpenAI : Bool
  file : Option UploadedFile
  imageUrl : Option String
  prompt : Option String
  model : Option String
  seconds : Option Nat
  size : Option String

structure World where
  fetchImage : String → Option String
  writeOk : Bool
  metadata : TempPath → Option (Nat × Nat)
  resizeOk : Bool
  submitOk : Bool
  tFetch : Nat
  tResize : Nat

structure ResizeCall where
  src : TempPath
  dest : TempPath
  width : Rat
  height : Rat
  fit : String
  withoutEnlargement : Bool
deriving DecidableEq

structure GenResult where
  status : Nat
  created : List TempPath
  unlinked : List TempPath
  resizeCalls : List ResizeCall
  submitted : Option CreateArgs
  effectivePath : Option TempPath

/-- JS truthiness of an optional string (`undefined` and `''` are falsy). -/
def truthyStr (o : Option String) : Bool :=
  match o with
  | none => false
  | some s => decide (s ≠ "")

/-- `contentType.includes('png') ? 'png' : contentType.includes('webp') ?
'webp' : 'jpg'`. -/
def jsIncludes (s sub : String) : Bool :=
  decide (sub.data <:+: s.data)

def extFor (ct : String) : String :=
  if jsIncludes ct "png" then "png"
  else if jsIncludes ct "webp" then "webp"
  else "jpg"

/-- The template literal computing the auto-detected requested size. -/
def autoSize (iw ih : Nat) : String :=
  toString iw ++ "x" ++ toString ih

/-- `let requestedSize = size; if (!requestedSize && imageWidth &&
imageHeight) ... else if (!requestedSize) ...`. -/
def requestedSizeOf (size : Option String) (iw ih : Nat) : String :=
  if truthyStr size then size.getD ""
  else if iw ≠ 0 ∧ ih ≠ 0 then autoSize iw ih
  else "720x1280"

/-- Unlink list of `if (file?.path) ...` in the multer-upload position. -/
def filePart (file : Option UploadedFile) : List TempPath :=
  match file with
  | some f => [TempPath.upload f.path]
  | none => []

/-- Unlink list of `if (tempImagePath) ...`. -/
def tempPart (temp : Option TempPath) : List TempPath :=
  match temp with
  | some t => [t]
  | none => []

/-- The `catch` block's cleanup: the upload, the fetched copy, and the
processed path when it differs from both. -/
def catchUnlinks (file : Option UploadedFile) (temp processed : Option TempPath) :
    List TempPath :=
  filePart file ++ tempPart temp
  ++ (match processed with
      | some p =>
        if file.map (fun f => TempPath.upload f.path) ≠ some p ∧ temp ≠ some p
        then [p] else []
      | none => [])

/-- The success path's cleanup: the upload, the fetched copy, and the
processed path when it differs from the source image path. -/
def successUnlinks (file : Option UploadedFile) (temp : Option TempPath)
    (processed imagePath : TempPath) : List TempPath :=
  filePart file ++ tempPart temp
  ++ (if processed ≠ imagePath then [processed] else [])

/-- Outer-`catch` exit (500 response). -/
def errorResult (file : Option UploadedFile) (temp processed : Option TempPath)
    (created : List TempPath) (calls : List ResizeCall)
    (submitted : Option CreateArgs) : GenResult :=
  ⟨500, created, catchUnlinks file temp processed, calls, submitted, processed⟩

/-- The `callOpenAIVideoCreate` call and the two exits that follow it. -/
def submitStep (req : GenRequest) (w : World) (imagePath : TempPath)
    (mime origName : String) (created : List TempPath)
    (temp : Option TempPath) (processed : TempPath)
    (targetSize : String) (calls : List ResizeCall) : GenResult :=
  let args : CreateArgs :=
    ⟨req.prompt, req.model, some (jsOrNat req.seconds 8), some targetSize,
      some processed, some mime, some origName⟩
  if w.submitOk then
    ⟨200, created, successUnlinks req.file temp processed imagePath,
      calls, some args, some processed⟩
  else
    errorResult req.file temp (some processed) created calls (some args)

/-- The handler body from the `sharp(imagePath).metadata()` call on:
dimension detection, size negotiation, the conditional resize, and the
submission. -/
def afterImage (req : GenRequest) (w : World) (imagePath : TempPath)
    (mime origName : String) (created : List TempPath)
    (temp : Option TempPath) : GenResult :=
  match w.metadata imagePath with
  | none => errorResult req.file temp none created [] none
  | some (iw, ih) =>
    let targetSize := mapToValidSoraSize (requestedSizeOf req.size iw ih)
    match jsSplitNumbers targetSize with
    | (some tw, some th) =>
      if (iw : Rat) ≠ tw ∨ (ih : Rat) ≠ th then
        let dest := TempPath.resized w.tResize (baseNameOf imagePath)
        if w.resizeOk then
          submitStep req w imagePath mime origName (created ++ [dest]) temp dest
            targetSize [⟨imagePath, dest, tw, th, "fill", false⟩]
        else
          errorResult req.file temp (some dest) created
            [⟨imagePath, dest, tw, th, "fill", false⟩] none
      else
        submitStep req w imagePath mime origName created temp imagePath targetSize []
    | (_, _) =>
      -- unreachable for catalog names: `resize(NaN, NaN)` would throw and
      -- land in the outer catch with `processedImagePath` already set
      errorResult req.file temp
        (some (TempPath.resized w.tResize (baseNameOf imagePath))) created [] none

/-- The whole `POST /api/generate` handler. -/
def generateHandler (req : GenRequest) (w : World) : GenResult :=
  if req.hasOpenAI = false then
    ⟨503, filePart req.file, [], [], none, none⟩
  else
    match req.file with
    | some f =>
      afterImage req w (TempPath.upload f.path) f.mimetype f.originalname
        [TempPath.upload f.path] none
    | none =>
      if truthyStr req.imageUrl then
        match w.fetchImage (req.imageUrl.getD "") with
        | none => ⟨400, [], [], [], none, none⟩
        | some ct =>
          if w.writeOk then
            afterImage req w (TempPath.fetched w.tFetch (extFor ct)) ct
              ("character." ++ extFor ct)
              [TempPath.fetched w.tFetch (extFor ct)]
              (some (TempPath.fetched w.tFetch (extFor ct)))
          else ⟨400, [], [], [], none, none⟩
      else ⟨400, [], [], [], none, none⟩

/-! ### Remix handler (`POST /api/remix`, `server.js` lines 1117-1149) -/

inductive RemixOutcome where
  | ok (body : String)
  | httpError (status : Nat) (text : String)

structure RemixResult where
  status : Nat
  networkCalls : Nat
deriving DecidableEq

/-- The remix handler: the configuration gate, then `if (!videoId ||
!prompt) return 400` before the single remote call. -/
def remixHandler (hasOpenAI : Bool) (videoId prompt : Option String)
    (remote : RemixOutcome) : RemixResult :=
  if hasOpenAI = false then ⟨503, 0⟩
  else if truthyStr videoId = false ∨ truthyStr prompt = false then ⟨400, 0⟩
  else
    match remote with
    | .ok _ => ⟨200, 1⟩
    | .httpError _ _ => ⟨500, 1⟩

/-! ### Behaviour of the catalog scan

The loop seeds `bestMatch` with `VALID_SORA_SIZES[0]` *before* the
orientation filter is applied, and a candidate only replaces the best
on a *strictly* smaller difference of `ratio` fields.  Since the third
and fourth entries carry the same `ratio` fields as the first and
second, they can never win. -/

lemma mapCore_of_portrait (w h : Rat) (hp : w < h) :
    mapCore w h = "720x1280" := by
  simp +decide [mapCore, scanSizes, VALID_SORA_SIZES, hp]

lemma mapCore_of_landscape_near (w h : Rat) (hp : ¬ w < h)
    (hd : ¬ |w / h - 16/9| < |w / h - 9/16|) :
    mapCore w h = "720x1280" := by
  simp +decide [mapCore, scanSizes, VALID_SORA_SIZES, hp, hd]

lemma mapCore_of_landscape_far (w h : Rat) (hp : ¬ w < h)
    (hd : |w / h - 16/9| < |w / h - 9/16|) :
    mapCore w h = "1280x720" := by
  simp +decide [mapCore, scanSizes, VALID_SORA_SIZES, hp, hd]

lemma mapCore_range (w h : Rat) :
    mapCore w h = "720x1280" ∨ mapCore w h = "1280x720" := by
  by_cases hp : w < h
  · exact Or.inl (mapCore_of_portrait w h hp)
  · by_cases hd : |w / h - 16/9| < |w / h - 9/16|
    · exact Or.inr (mapCore_of_landscape_far w h hp hd)
    · exact Or.inl (mapCore_of_landscape_near w h hp hd)

lemma mapToValidSoraSize_range (s : String) :
    mapToValidSoraSize s = "720x1280" ∨ mapToValidSoraSize s = "1280x720" := by
  unfold mapToValidSoraSize
  obtain ⟨ow, oh⟩ := jsSplitNumbers s
  cases ow with
  | none => cases oh <;> simp
  | some w =>
    cases oh with
    | none => simp
    | some h =>
      by_cases hz : w = 0 ∨ h = 0
      · simp [hz]
      · simpa [hz] using mapCore_range w h

/-- For a landscape request the loop's strict-improvement test against the
portrait seed resolves to a ratio threshold: the landscape candidates win
exactly when the requested ratio exceeds the midpoint `337/288` of the two
stored catalog ratios `9/16` and `16/9`. -/
lemma landscape_threshold (r : Rat) (hr : 1 ≤ r) :
    |r - 16/9| < |r - 9/16| ↔ 337/288 < r := by
  have h1 : |r - 9/16| = r - 9/16 := abs_of_nonneg (by linarith)
  rcases le_or_lt (16/9 : Rat) r with hge | hlt
  · have h2 : |r - 16/9| = r - 16/9 := abs_of_nonneg (by linarith)
    rw [h1, h2]
    constructor
    · intro _; linarith
    · intro _; linarith
  · have h2 : |r - 16/9| = -(r - 16/9) := abs_of_nonpos (by linarith)
    rw [h1, h2]
    constructor
    · intro hlt2; linarith
    · intro hgt; linarith

/-! ### Claim C10 -/

/-- C10: for every input string whatsoever, `mapToValidSoraSize` returns
either `'720x1280'` or `'1280x720'`; the catalog entries `'1024x1792'` and
`'1792x1024'` are never returned, because their stored `ratio` fields
duplicate the first two entries' ratios and a candidate replaces the current
best only on a strictly smaller ratio difference, so the earliest entry of
each stored ratio always wins. -/
theorem negotiator_range_two_sizes (s : String) :
    (mapToValidSoraSize s = "720x1280" ∨ mapToValidSoraSize s = "1280x720")
    ∧ mapToValidSoraSize s ≠ "1024x1792"
    ∧ mapToValidSoraSize s ≠ "1792x1024" := by
  refine ⟨mapToValidSoraSize_range s, ?_, ?_⟩ <;>
    rcases mapToValidSoraSize_range s with h | h <;> simp [h]

/-- Closed instance of `negotiator_range_two_sizes`. -/
theorem negotiator_range_two_sizes_witness :
    (mapToValidSoraSize "640x480" = "720x1280" ∨
      mapToValidSoraSize "640x480" = "1280x720")
    ∧ mapToValidSoraSize "640x480" ≠ "1024x1792"
    ∧ mapToValidSoraSize "640x480" ≠ "1792x1024" :=
  negotiator_range_two_sizes "640x480"

/-! ### Claim C4 -/

/-- C4 counterexample: `"1024x1024"` parses to width 1024, height 1024,
which is not portrait (`height > width` fails), yet the function returns
`'720x1280'`, whose orientation is portrait: the pre-loop seed
`VALID_SORA_SIZES[0]` is returned without passing the orientation filter. -/
theorem negotiator_orientation_counterexample :
    jsSplitNumbers "1024x1024" = (some 1024, some 1024)
    ∧ mapToValidSoraSize "1024x1024" = "720x1280"
    ∧ ¬ (1024 : Rat) < 1024
    ∧ (∀ v ∈ VALID_SORA_SIZES, v.name = "720x1280" → v.width < v.height) := by
  refine ⟨?_, ?_, by norm_num, by simp +decide [VALID_SORA_SIZES]⟩
  · norm_num +decide [jsSplitNumbers, splitOnChar, jsNumberChars, jsTrim,
      parseDigits, digitVal, isJsSpace, String.data]
  · norm_num +decide [mapToValidSoraSize, jsSplitNumbers, splitOnChar, jsNumberChars,
      jsTrim, parseDigits, digitVal, isJsSpace, mapCore, scanSizes, VALID_SORA_SIZES,
      String.data, abs_of_nonneg, abs_of_nonpos]

/-- C4 amended: for every parsed `"WxH"` input with positive dimensions,
portrait requests (`height > width`) always receive the portrait entry
`'720x1280'`; landscape requests receive the landscape entry `'1280x720'`
exactly when the requested ratio exceeds `337/288` (the midpoint of the two
stored catalog ratios), and otherwise fall back to the portrait seed
`'720x1280'`, because the pre-loop initial best is not subject to the
orientation filter.  The loop itself never selects an other-orientation
candidate. -/
theorem negotiator_orientation_amended (s : String) (w h : Rat)
    (hparse : jsSplitNumbers s = (some w, some h)) (hw : 0 < w) (hh : 0 < h) :
    (w < h → mapToValidSoraSize s = "720x1280")
    ∧ (¬ w < h →
        (337/288 < w / h → mapToValidSoraSize s = "1280x720")
        ∧ (w / h ≤ 337/288 → mapToValidSoraSize s = "720x1280")) := by
  have hmap : mapToValidSoraSize s = mapCore w h := by
    unfold mapToValidSoraSize
    rw [hparse]
    simp [hw.ne', hh.ne']
  constructor
  · intro hp
    rw [hmap]
    exact mapCore_of_portrait w h hp
  · intro hp
    have hr : 1 ≤ w / h := (one_le_div hh).mpr (le_of_not_lt hp)
    constructor
    · intro hgt
      rw [hmap]
      exact mapCore_of_landscape_far w h hp ((landscape_threshold _ hr).mpr hgt)
    · intro hle
      rw [hmap]
      refine mapCore_of_landscape_near w h hp (fun hcon => ?_)
      exact absurd ((landscape_threshold _ hr).mp hcon) (not_lt.mpr hle)

/-- Closed instance of `negotiator_orientation_amended` at `"1920x1080"`. -/
theorem negotiator_orientation_amended_witness :
    ((1920 : Rat) < 1080 → mapToValidSoraSize "1920x1080" = "720x1280")
    ∧ (¬ (1920 : Rat) < 1080 →
        ((337/288 : Rat) < 1920 / 1080 → mapToValidSoraSize "1920x1080" = "1280x720")
        ∧ ((1920 : Rat) / 1080 ≤ 337/288 → mapToValidSoraSize "1920x1080" = "720x1280")) :=
  negotiator_orientation_amended "1920x1080" 1920 1080
    (by norm_num +decide [jsSplitNumbers, splitOnChar, jsNumberChars, jsTrim,
      parseDigits, digitVal, isJsSpace, String.data])
    (by norm_num) (by norm_num)

/-! ### Claim C7 -/

/-- C7 counterexample: `'1024x1792'` is a catalog name, but
`mapToValidSoraSize` does not map it to itself: it returns `'720x1280'`,
the earlier entry with the same stored ratio field. -/
theorem negotiator_idempotence_counterexample :
    "1024x1792" ∈ VALID_SORA_SIZES.map (fun v => v.name)
    ∧ mapToValidSoraSize "1024x1792" = "720x1280"
    ∧ mapToValidSoraSize "1024x1792" ≠ "1024x1792" := by
  refine ⟨by simp [VALID_SORA_SIZES], ?_, ?_⟩ <;>
    norm_num +decide [mapToValidSoraSize, jsSplitNumbers, splitOnChar, jsNumberChars,
      jsTrim, parseDigits, digitVal, isJsSpace, mapCore, scanSizes, VALID_SORA_SIZES,
      String.data, abs_of_nonneg, abs_of_nonpos]

/-- C7 amended: `mapToValidSoraSize ∘ mapToValidSoraSize` agrees with
`mapToValidSoraSize` on every catalog name, and the first two catalog names
are fixed points, but `'1024x1792'` and `'1792x1024'` are not: each maps to
the earlier catalog entry carrying the same stored ratio field. -/
theorem negotiator_idempotence_amended :
    (∀ x ∈ VALID_SORA_SIZES.map (fun v => v.name),
      mapToValidSoraSize (mapToValidSoraSize x) = mapToValidSoraSize x)
    ∧ mapToValidSoraSize "720x1280" = "720x1280"
    ∧ mapToValidSoraSize "1280x720" = "1280x720"
    ∧ mapToValidSoraSize "1024x1792" = "720x1280"
    ∧ mapToValidSoraSize "1792x1024" = "1280x720" := by
  have e1 : mapToValidSoraSize "720x1280" = "720x1280" := by
    norm_num +decide [mapToValidSoraSize, jsSplitNumbers, splitOnChar, jsNumberChars,
      jsTrim, parseDigits, digitVal, isJsSpace, mapCore, scanSizes, VALID_SORA_SIZES,
      String.data, abs_of_nonneg, abs_of_nonpos]
  have e2 : mapToValidSoraSize "1280x720" = "1280x720" := by
    norm_num +decide [mapToValidSoraSize, jsSplitNumbers, splitOnChar, jsNumberChars,
      jsTrim, parseDigits, digitVal, isJsSpace, mapCore, scanSizes, VALID_SORA_SIZES,
      String.data, abs_of_nonneg, abs_of_nonpos]
  have e3 : mapToValidSoraSize "1024x1792" = "720x1280" := by
    norm_num +decide [mapToValidSoraSize, jsSplitNumbers, splitOnChar, jsNumberChars,
      jsTrim, parseDigits, digitVal, isJsSpace, mapCore, scanSizes, VALID_SORA_SIZES,
      String.data, abs_of_nonneg, abs_of_nonpos]
  have e4 : mapToValidSoraSize "1792x1024" = "1280x720" := by
    norm_num +decide [mapToValidSoraSize, jsSplitNumbers, splitOnChar, jsNumberChars,
      jsTrim, parseDigits, digitVal, isJsSpace, mapCore, scanSizes, VALID_SORA_SIZES,
      String.data, abs_of_nonneg, abs_of_nonpos]
  refine ⟨?_, e1, e2, e3, e4⟩
  intro x hx
  simp only [VALID_SORA_SIZES, List.map_cons, List.map_nil, List.mem_cons,
    List.not_mem_nil, or_false] at hx
  rcases hx with rfl | rfl | rfl | rfl
  · rw [e1, e1]
  · rw [e2, e2]
  · rw [e3, e1]
  · rw [e4, e2]

/-- Closed instance of `negotiator_idempotence_amended` at the catalog name
`'1024x1792'`. -/
theorem negotiator_idempotence_amended_witness :
    mapToValidSoraSize (mapToValidSoraSize "1024x1792") =
      mapToValidSoraSize "1024x1792" :=
  negotiator_idempotence_amended.1 "1024x1792" (by simp [VALID_SORA_SIZES])

/-! ### Claim C8 -/

/-- C8 counterexample: the stored ratio fields of the catalog are
`[9/16, 16/9, 9/16, 16/9]`; the third entry's stored ratio `9/16` differs
from its width/height quotient `1024/1792 = 4/7`, and the four stored ratios
are not pairwise distinct (two values occur twice each). -/
theorem catalog_ratio_counterexample :
    VALID_SORA_SIZES.map (fun v => v.ratio) = [9/16, 16/9, 9/16, 16/9]
    ∧ ¬ (∀ v ∈ VALID_SORA_SIZES, v.ratio = (v.width : Rat) / v.height)
    ∧ ¬ List.Pairwise (fun a b => a ≠ b) (VALID_SORA_SIZES.map (fun v => v.ratio)) := by
  refine ⟨by norm_num [VALID_SORA_SIZES], fun hall => ?_, fun hpw => ?_⟩
  · have h3 := hall ⟨1024, 1792, 9/16, "1024x1792"⟩ (by simp [VALID_SORA_SIZES])
    norm_num at h3
  · rw [show VALID_SORA_SIZES.map (fun v => v.ratio) = [9/16, 16/9, 9/16, 16/9] by
      norm_num [VALID_SORA_SIZES]] at hpw
    simp [List.pairwise_cons] at hpw

/-- C8 amended: the catalog has exactly four entries, two portrait and two
landscape; the stored ratio fields are `[9/16, 16/9, 9/16, 16/9]`, so they
take only two distinct values; the first two entries' stored ratios equal
their width/height quotients, while the last two entries' do not (the
quotients are `4/7` and `7/4`); the four width/height quotients themselves
are pairwise distinct. -/
theorem catalog_ratio_amended :
    VALID_SORA_SIZES.length = 4
    ∧ (VALID_SORA_SIZES.filter (fun v => decide (v.width < v.height))).length = 2
    ∧ (VALID_SORA_SIZES.filter (fun v => decide (v.height < v.width))).length = 2
    ∧ VALID_SORA_SIZES.map (fun v => v.ratio) = [9/16, 16/9, 9/16, 16/9]
    ∧ VALID_SORA_SIZES.map (fun v => (v.width : Rat) / v.height)
        = [9/16, 16/9, 4/7, 7/4]
    ∧ List.Pairwise (fun a b => a ≠ b)
        (VALID_SORA_SIZES.map (fun v => (v.width : Rat) / v.height)) := by
  refine ⟨by simp [VALID_SORA_SIZES], by simp +decide [VALID_SORA_SIZES],
    by simp +decide [VALID_SORA_SIZES], by norm_num [VALID_SORA_SIZES],
    by norm_num [VALID_SORA_SIZES], ?_⟩
  rw [show VALID_SORA_SIZES.map (fun v => (v.width : Rat) / v.height)
      = [9/16, 16/9, 4/7, 7/4] by norm_num [VALID_SORA_SIZES]]
  norm_num [List.pairwise_cons]

/-! ### Cleanup discipline of the generate handler -/

lemma count_singleton_of_mem (a : TempPath) :
    ∀ p ∈ ([a] : List TempPath), List.count p [a] = 1 := by
  intro p hp
  simp only [List.mem_singleton] at hp
  subst hp
  simp

lemma nodup_count_pair (a b : TempPath) (hab : a ≠ b) :
    ([a, b] : List TempPath).Nodup
    ∧ ∀ p ∈ ([a, b] : List TempPath), List.count p [a, b] = 1 := by
  constructor
  · simp [hab]
  · intro p hp
    simp only [List.mem_cons, List.mem_singleton, List.not_mem_nil, or_false] at hp
    rcases hp with rfl | rfl
    · simp [List.count_cons, hab.symm]
    · simp [List.count_cons, hab]

lemma count_first_of_pair (a b : TempPath) (hab : a ≠ b) :
    ∀ p ∈ ([a] : List TempPath), List.count p [a, b] = 1 := by
  intro p hp
  simp only [List.mem_singleton] at hp
  subst hp
  simp [List.count_cons, hab.symm]

/-- On every exit path of `afterImage` — metadata failure, resize failure,
submission failure, success, and the unreachable parse branch — the unlink
list is duplicate-free and covers every created temp file exactly once.
The two hypotheses capture the two call shapes of the handler: the cleanup
prelude (`file` and `tempImagePath` unlinks) deletes exactly the source
image path, and the processed-path guard succeeds exactly away from it. -/
lemma afterImage_cleanup (req : GenRequest) (w : World) (imagePath : TempPath)
    (mime orig : String) (temp : Option TempPath)
    (hparts : filePart req.file ++ tempPart temp = [imagePath])
    (hguard : ∀ p : TempPath,
      (req.file.map (fun f => TempPath.upload f.path) ≠ some p ∧ temp ≠ some p)
        ↔ p ≠ imagePath)
    (hnores : ∀ t b, imagePath ≠ TempPath.resized t b) :
    (afterImage req w imagePath mime orig [imagePath] temp).unlinked.Nodup
    ∧ ∀ p ∈ (afterImage req w imagePath mime orig [imagePath] temp).created,
        (afterImage req w imagePath mime orig [imagePath] temp).unlinked.count p
          = 1 := by
  have hba : ∀ t b, TempPath.resized t b ≠ imagePath :=
    fun t b h => hnores t b h.symm
  unfold afterImage
  cases hmd : w.metadata imagePath with
  | none =>
    simp only [errorResult, catchUnlinks, hparts, List.append_nil]
    exact ⟨List.nodup_singleton _, count_singleton_of_mem _⟩
  | some pair =>
    obtain ⟨iw, ih⟩ := pair
    rcases hsp : jsSplitNumbers (mapToValidSoraSize (requestedSizeOf req.size iw ih))
      with ⟨ow, oh⟩
    simp only
    rw [hsp]
    cases ow with
    | none =>
      simp only [errorResult, catchUnlinks, hparts]
      rw [if_pos ((hguard _).mpr (hba _ _))]
      exact ⟨(nodup_count_pair _ _ (hba _ _).symm).1, count_first_of_pair _ _ (hba _ _).symm⟩
    | some tw =>
      cases oh with
      | none =>
        simp only [errorResult, catchUnlinks, hparts]
        rw [if_pos ((hguard _).mpr (hba _ _))]
        exact ⟨(nodup_count_pair _ _ (hba _ _).symm).1, count_first_of_pair _ _ (hba _ _).symm⟩
      | some th =>
        dsimp only
        by_cases hd : (iw : Rat) ≠ tw ∨ (ih : Rat) ≠ th
        · rw [if_pos hd]
          cases hrs : w.resizeOk with
          | false =>
            simp only [Bool.false_eq_true, if_false, errorResult, catchUnlinks, hparts]
            rw [if_pos ((hguard _).mpr (hba _ _))]
            exact ⟨(nodup_count_pair _ _ (hba _ _).symm).1,
              count_first_of_pair _ _ (hba _ _).symm⟩
          | true =>
            simp only [if_true, submitStep]
            cases hsb : w.submitOk with
            | true =>
              simp only [if_true, successUnlinks, hparts]
              rw [if_pos (hba _ _)]
              exact nodup_count_pair _ _ (hba _ _).symm
            | false =>
              simp only [Bool.false_eq_true, if_false, errorResult, catchUnlinks, hparts]
              rw [if_pos ((hguard _).mpr (hba _ _))]
              exact nodup_count_pair _ _ (hba _ _).symm
        · rw [if_neg hd]
          simp only [submitStep]
          cases hsb : w.submitOk with
          | true =>
            simp only [if_true, successUnlinks, hparts]
            rw [if_neg (by simp)]
            simp only [List.append_nil]
            exact ⟨List.nodup_singleton _, count_singleton_of_mem _⟩
          | false =>
            simp only [Bool.false_eq_true, if_false, errorResult, catchUnlinks, hparts]
            rw [if_neg (fun hcon => (hguard imagePath).mp hcon rfl)]
            simp only [List.append_nil]
            exact ⟨List.nodup_singleton _, count_singleton_of_mem _⟩

/-! ### Claim C1 -/

/-- C1: the form built by the job submitter carries exactly one `size` field,
whose value is `mapToValidSoraSize` applied to the requested size defaulted
to `'720x1280'`; that value is always a catalog name; a `model` field is
always present, defaulting to `'sora-2'`; no other size string is ever put
in the form. -/
theorem submitter_sends_negotiated_catalog_size (a : CreateArgs) :
    (buildCreateForm a).filter (fun kv => decide (kv.1 = "size"))
      = [("size", mapToValidSoraSize (jsOrStr a.size "720x1280"))]
    ∧ mapToValidSoraSize (jsOrStr a.size "720x1280")
        ∈ VALID_SORA_SIZES.map (fun v => v.name)
    ∧ (buildCreateForm a).filter (fun kv => decide (kv.1 = "model"))
      = [("model", jsOrStr a.model "sora-2")]
    ∧ (a.size = none → jsOrStr a.size "720x1280" = "720x1280")
    ∧ (a.model = none → jsOrStr a.model "sora-2" = "sora-2") := by
  refine ⟨?_, ?_, ?_, fun hs => by simp [hs, jsOrStr], fun hm => by simp [hm, jsOrStr]⟩
  · rcases a with ⟨p, m, sec, sz, ip, im, io⟩
    cases p <;> cases sec <;> cases ip <;>
      simp +decide [buildCreateForm, List.filter_append] <;> split <;> simp
  · rcases mapToValidSoraSize_range (jsOrStr a.size "720x1280") with h | h <;>
      simp [h, VALID_SORA_SIZES]
  · rcases a with ⟨p, m, sec, sz, ip, im, io⟩
    cases p <;> cases sec <;> cases ip <;>
      simp +decide [buildCreateForm, List.filter_append] <;> split <;> simp

/-- Closed instance of `submitter_sends_negotiated_catalog_size` for a
request with no optional fields. -/
theorem submitter_sends_negotiated_catalog_size_witness :
    (buildCreateForm ⟨none, none, none, none, none, none, none⟩).filter
        (fun kv => decide (kv.1 = "size"))
      = [("size", mapToValidSoraSize (jsOrStr none "720x1280"))]
    ∧ mapToValidSoraSize (jsOrStr none "720x1280")
        ∈ VALID_SORA_SIZES.map (fun v => v.name)
    ∧ (buildCreateForm ⟨none, none, none, none, none, none, none⟩).filter
        (fun kv => decide (kv.1 = "model"))
      = [("model", jsOrStr none "sora-2")]
    ∧ ((none : Option String) = none → jsOrStr none "720x1280" = "720x1280")
    ∧ ((none : Option String) = none → jsOrStr none "sora-2" = "sora-2") :=
  submitter_sends_negotiated_catalog_size ⟨none, none, none, none, none, none, none⟩

/-! ### Claim C2 -/

/-- C2: when all three status attempts fail with HTTP 500/502/503 (bodies
parsing as JSON), the poller makes exactly 3 attempts, sleeps `1000·1` ms
after the first and `1000·2` ms after the second, and returns the failure
response carrying `retryable: true`; when the remote returns 503 twice and
then a success, the poller returns the parsed success body after exactly 3
attempts with exactly those two intervening delays. -/
theorem status_poller_transient_retry_schedule
    (r1 r2 : Nat → FetchOutcome) (s1 s2 s3 : Nat) (t1 t2 t3 u1 u2 body : String)
    (h1 : r1 1 = .httpError s1 true t1) (hs1 : transientStatus s1 = true)
    (h2 : r1 2 = .httpError s2 true t2) (hs2 : transientStatus s2 = true)
    (h3 : r1 3 = .httpError s3 true t3) (hs3 : transientStatus s3 = true)
    (g1 : r2 1 = .httpError 503 true u1)
    (g2 : r2 2 = .httpError 503 true u2)
    (g3 : r2 3 = .ok true body) :
    poll r1 = ⟨3, [1000 * 1, 1000 * 2], .failure true⟩
    ∧ poll r2 = ⟨3, [1000 * 1, 1000 * 2], .success body⟩ := by
  constructor
  · simp [poll, pollAux, h1, h2, h3, hs1, hs2, hs3]
  · simp +decide [poll, pollAux, g1, g2, g3]

/-- Closed instance of `status_poller_transient_retry_schedule`: a remote
that always answers 503, and one that answers 503 twice then succeeds. -/
theorem status_poller_transient_retry_schedule_witness :
    poll (fun _ => .httpError 503 true "{}") = ⟨3, [1000 * 1, 1000 * 2], .failure true⟩
    ∧ poll (fun n => if n == 3 then .ok true "done" else .httpError 503 true "{}")
      = ⟨3, [1000 * 1, 1000 * 2], .success "done"⟩ :=
  status_poller_transient_retry_schedule
    (fun _ => .httpError 503 true "{}")
    (fun n => if n == 3 then .ok true "done" else .httpError 503 true "{}")
    503 503 503 "{}" "{}" "{}" "{}" "{}" "done"
    rfl (by decide) rfl (by decide) rfl (by decide) rfl rfl rfl

/-! ### Claim C3 -/

/-- C3 (code bug): on a remote that always answers 404 with a JSON body, the
poller does not fail after 1 attempt with `retryable: false` as specified;
it makes all 3 attempts (with no intervening sleeps, because the
non-transient classification skips the backoff branch) and reports the
failure with `retryable: true`. -/
theorem status_poller_behavior_on_404 :
    poll (fun _ => .httpError 404 true "{}") = ⟨3, [], .failure true⟩
    ∧ (poll (fun _ => .httpError 404 true "{}")).attempts ≠ 1
    ∧ (poll (fun _ => .httpError 404 true "{}")).resp ≠ .failure false := by
  refine ⟨?_, ?_, ?_⟩ <;> simp +decide [poll, pollAux]

/-! ### Claim C5 -/

/-- C5 counterexample: when the OpenAI key is not configured, the handler
returns the early 503 rejection without scheduling any deletion, although
the multer middleware has already written the uploaded file: that temp file
is created during the call and never deleted. -/
theorem generate_cleanup_counterexample :
    (generateHandler
        ⟨false, some ⟨"img", "image/png", "c.png"⟩, none, none, none, none, none⟩
        ⟨fun _ => none, true, fun _ => none, true, true, 0, 0⟩).created
      = [TempPath.upload "img"]
    ∧ (generateHandler
        ⟨false, some ⟨"img", "image/png", "c.png"⟩, none, none, none, none, none⟩
        ⟨fun _ => none, true, fun _ => none, true, true, 0, 0⟩).unlinked = [] := by
  exact ⟨rfl, rfl⟩

/-- C5 amended: on every exit path of the handler reached when the OpenAI
key is configured — success, submission failure, invalid image, storage
failure (fetch, write or resize), and the missing-input rejection — the
unlink list is duplicate-free (no path is deleted twice) and schedules
every temp file created during the call exactly once; deletions go through
`fs.unlink` with an ignore-errors callback, so deleting a missing file is a
no-op.  The early 503 path taken when the key is unconfigured is the
exception: it does not delete an already-saved upload. -/
theorem generate_cleanup_amended (req : GenRequest) (w : World)
    (hcfg : req.hasOpenAI = true) :
    (generateHandler req w).unlinked.Nodup
    ∧ ∀ p ∈ (generateHandler req w).created,
        (generateHandler req w).unlinked.count p = 1 := by
  unfold generateHandler
  rw [hcfg, if_neg (by decide)]
  cases hf : req.file with
  | some f =>
    refine afterImage_cleanup req w (TempPath.upload f.path) f.mimetype f.originalname
      none ?_ ?_ ?_
    · simp [filePart, tempPart, hf]
    · intro p
      simp [hf, eq_comm]
    · intro t b
      simp
  | none =>
    cases htr : truthyStr req.imageUrl with
    | false => simp
    | true =>
      cases hfi : w.fetchImage (req.imageUrl.getD "") with
      | none => simp
      | some ct =>
        cases hwr : w.writeOk with
        | false => simp
        | true =>
          refine afterImage_cleanup req w (TempPath.fetched w.tFetch (extFor ct)) ct
            ("character." ++ extFor ct) (some (TempPath.fetched w.tFetch (extFor ct)))
            ?_ ?_ ?_
          · simp [filePart, tempPart, hf]
          · intro p
            simp [hf, eq_comm]
          · intro t b
            simp

/-- Closed instance of `generate_cleanup_amended`: a configured server,
an uploaded file, and a successful run. -/
theorem generate_cleanup_amended_witness :
    (generateHandler
        ⟨true, some ⟨"img", "image/png", "c.png"⟩, none, none, none, none, none⟩
        ⟨fun _ => none, true, fun _ => some (720, 1280), true, true, 0, 0⟩).unlinked.Nodup
    ∧ ∀ p ∈ (generateHandler
        ⟨true, some ⟨"img", "image/png", "c.png"⟩, none, none, none, none, none⟩
        ⟨fun _ => none, true, fun _ => some (720, 1280), true, true, 0, 0⟩).created,
        (generateHandler
          ⟨true, some ⟨"img", "image/png", "c.png"⟩, none, none, none, none, none⟩
          ⟨fun _ => none, true, fun _ => some (720, 1280), true, true, 0, 0⟩).unlinked.count p
          = 1 :=
  generate_cleanup_amended _ _ rfl

/-! ### Claim C6 -/

/-- C6: in the generate handler (configured, with an uploaded file whose
metadata decodes to `iw × ih`, the negotiated target parsing to `tw × th`):
a resize is requested if and only if the decoded dimensions differ from the
target; when they are equal the original upload path is reused as the
effective path and no file beyond the upload exists; when they differ, the
single resize call goes from the upload to the fresh time-suffixed
`resized_` path (distinct from the source), forces exactly the target width
and height with the `fill` policy, and permits enlargement
(`withoutEnlargement: false`); when the resize succeeds, exactly that one
extra file is created and becomes the effective path. -/
theorem generate_resize_iff_dims_differ (req : GenRequest) (w : World)
    (f : UploadedFile) (iw ih : Nat) (tw th : Rat)
    (hcfg : req.hasOpenAI = true) (hf : req.file = some f)
    (hmd : w.metadata (TempPath.upload f.path) = some (iw, ih))
    (hparse : jsSplitNumbers (mapToValidSoraSize (requestedSizeOf req.size iw ih))
        = (some tw, some th)) :
    ((generateHandler req w).resizeCalls ≠ [] ↔ ((iw : Rat) ≠ tw ∨ (ih : Rat) ≠ th))
    ∧ (((iw : Rat) = tw ∧ (ih : Rat) = th) →
        (generateHandler req w).effectivePath = some (TempPath.upload f.path)
        ∧ (generateHandler req w).created = [TempPath.upload f.path]
        ∧ (generateHandler req w).resizeCalls = [])
    ∧ (((iw : Rat) ≠ tw ∨ (ih : Rat) ≠ th) →
        (generateHandler req w).resizeCalls
          = [⟨TempPath.upload f.path, TempPath.resized w.tResize f.path, tw, th,
              "fill", false⟩]
        ∧ TempPath.resized w.tResize f.path ≠ TempPath.upload f.path
        ∧ (w.resizeOk = true →
            (generateHandler req w).created
              = [TempPath.upload f.path, TempPath.resized w.tResize f.path]
            ∧ (generateHandler req w).effectivePath
              = some (TempPath.resized w.tResize f.path))) := by
  have hred : generateHandler req w
      = afterImage req w (TempPath.upload f.path) f.mimetype f.originalname
          [TempPath.upload f.path] none := by
    unfold generateHandler
    rw [hcfg, if_neg (by decide), hf]
  rw [hred]
  unfold afterImage
  rw [hmd]
  dsimp only
  rw [hparse]
  dsimp only [baseNameOf]
  by_cases hd : (iw : Rat) ≠ tw ∨ (ih : Rat) ≠ th
  · rw [if_pos hd]
    have hcontra : ¬ ((iw : Rat) = tw ∧ (ih : Rat) = th) := by
      rcases hd with h | h
      · exact fun heq => h heq.1
      · exact fun heq => h heq.2
    cases hrs : w.resizeOk with
    | false =>
      simp only [Bool.false_eq_true, if_false, errorResult]
      exact ⟨by simp [hd], fun heq => absurd heq hcontra,
        fun _ => ⟨by trivial, by simp, fun hok => by simp at hok⟩⟩
    | true =>
      rw [if_pos rfl]
      unfold submitStep
      cases hsb : w.submitOk with
      | true =>
        rw [if_pos rfl]
        exact ⟨by simp [hd], fun heq => absurd heq hcontra,
          fun _ => ⟨by trivial, by simp, fun _ => ⟨by trivial, by trivial⟩⟩⟩
      | false =>
        rw [if_neg (by simp)]
        simp only [errorResult]
        exact ⟨by simp [hd], fun heq => absurd heq hcontra,
          fun _ => ⟨by trivial, by simp, fun _ => ⟨by trivial, by trivial⟩⟩⟩
  · rw [if_neg hd]
    unfold submitStep
    cases hsb : w.submitOk with
    | true =>
      rw [if_pos rfl]
      exact ⟨by simp [hd], fun _ => ⟨by trivial, by trivial, by trivial⟩,
        fun hcon => absurd hcon hd⟩
    | false =>
      rw [if_neg (by simp)]
      simp only [errorResult]
      exact ⟨by simp [hd], fun _ => ⟨by trivial, by trivial, by trivial⟩,
        fun hcon => absurd hcon hd⟩

/-- Closed instance of `generate_resize_iff_dims_differ`: a 720×1280 source
image with requested size `"720x1280"` (so target = source, no resize). -/
theorem generate_resize_iff_dims_differ_witness :
    ((generateHandler
        ⟨true, some ⟨"img", "image/png", "c.png"⟩, none, none, none, none, some "720x1280"⟩
        ⟨fun _ => none, true, fun _ => some (720, 1280), true, true, 0, 0⟩).resizeCalls ≠ []
      ↔ (((720 : Nat) : Rat) ≠ 720 ∨ ((1280 : Nat) : Rat) ≠ 1280))
    ∧ ((((720 : Nat) : Rat) = 720 ∧ ((1280 : Nat) : Rat) = 1280) →
        (generateHandler
          ⟨true, some ⟨"img", "image/png", "c.png"⟩, none, none, none, none, some "720x1280"⟩
          ⟨fun _ => none, true, fun _ => some (720, 1280), true, true, 0, 0⟩).effectivePath
          = some (TempPath.upload "img")
        ∧ (generateHandler
          ⟨true, some ⟨"img", "image/png", "c.png"⟩, none, none, none, none, some "720x1280"⟩
          ⟨fun _ => none, true, fun _ => some (720, 1280), true, true, 0, 0⟩).created
          = [TempPath.upload "img"]
        ∧ (generateHandler
          ⟨true, some ⟨"img", "image/png", "c.png"⟩, none, none, none, none, some "720x1280"⟩
          ⟨fun _ => none, true, fun _ => some (720, 1280), true, true, 0, 0⟩).resizeCalls = [])
    ∧ ((((720 : Nat) : Rat) ≠ 720 ∨ ((1280 : Nat) : Rat) ≠ 1280) →
        (generateHandler
          ⟨true, some ⟨"img", "image/png", "c.png"⟩, none, none, none, none, some "720x1280"⟩
          ⟨fun _ => none, true, fun _ => some (720, 1280), true, true, 0, 0⟩).resizeCalls
          = [⟨TempPath.upload "img", TempPath.resized 0 "img", 720, 1280, "fill", false⟩]
        ∧ TempPath.resized 0 "img" ≠ TempPath.upload "img"
        ∧ (true = true →
            (generateHandler
              ⟨true, some ⟨"img", "image/png", "c.png"⟩, none, none, none, none, some "720x1280"⟩
              ⟨fun _ => none, true, fun _ => some (720, 1280), true, true, 0, 0⟩).created
              = [TempPath.upload "img", TempPath.resized 0 "img"]
            ∧ (generateHandler
              ⟨true, some ⟨"img", "image/png", "c.png"⟩, none, none, none, none, some "720x1280"⟩
              ⟨fun _ => none, true, fun _ => some (720, 1280), true, true, 0, 0⟩).effectivePath
              = some (TempPath.resized 0 "img"))) :=
  generate_resize_iff_dims_differ _ _ ⟨"img", "image/png", "c.png"⟩ 720 1280 720 1280
    rfl rfl rfl
    (by norm_num +decide [requestedSizeOf, truthyStr, mapToValidSoraSize, jsSplitNumbers,
      splitOnChar, jsNumberChars, jsTrim, parseDigits, digitVal, isJsSpace, mapCore,
      scanSizes, VALID_SORA_SIZES, String.data, abs_of_nonneg, abs_of_nonpos])

/-! ### Claim C9 -/

/-- C9: with a configured key, a remix request missing its `videoId` or its
`prompt` is rejected with a 400 validation error and no remote call is
issued; and whatever the configuration, a request with a missing argument
never issues a network call. -/
theorem remix_validates_before_network (videoId prompt : Option String)
    (remote : RemixOutcome) (hmiss : videoId = none ∨ prompt = none) :
    (remixHandler true videoId prompt remote).status = 400
    ∧ (remixHandler true videoId prompt remote).networkCalls = 0
    ∧ ∀ cfg : Bool, (remixHandler cfg videoId prompt remote).networkCalls = 0 := by
  have ht : truthyStr videoId = false ∨ truthyStr prompt = false := by
    rcases hmiss with h | h
    · exact Or.inl (by simp [h, truthyStr])
    · exact Or.inr (by simp [h, truthyStr])
  refine ⟨?_, ?_, ?_⟩
  · rcases ht with h | h <;> simp [remixHandler, h]
  · rcases ht with h | h <;> simp [remixHandler, h]
  · intro cfg
    cases cfg
    · simp [remixHandler]
    · rcases ht with h | h <;> simp [remixHandler, h]

/-- Closed instance of `remix_validates_before_network`: missing `videoId`. -/
theorem remix_validates_before_network_witness :
    (remixHandler true none (some "say hi") (.ok "{}")).status = 400
    ∧ (remixHandler true none (some "say hi") (.ok "{}")).networkCalls = 0
    ∧ ∀ cfg : Bool,
        (remixHandler cfg none (some "say hi") (.ok "{}")).networkCalls = 0 :=
  remix_validates_before_network none (some "say hi") (.ok "{}") (Or.inl rfl)

end Goblina
